import Mathlib

/-! go-runner: a shallow embedding of `go-runner.go`

`go-runner` starts one child process, wires the child's standard output and
standard error to the inherited streams and/or an append-mode log file, starts a
background listener that forwards one interrupt to the child, and waits.

The program is embedded as pure functions over an explicit environment `Env`
that answers every question the program asks of the operating system (does the
log file open, does the child start, how does the child end).  Every call the
program makes to the outside is recorded, in program order, as an `Event`.
-/

namespace GoRunner

/-! ## Errors (`github.com/pkg/errors`) -/

/-- Go `error` values as the program builds them: `fundamental` is what
`errors.Errorf` returns and what the operating system or the `os/exec` package
hands back, `withMessage` is what `errors.Wrap` and `errors.Wrapf` build around a
non-nil cause. -/
inductive GoError where
  | fundamental (msg : String)
  | withMessage (cause : GoError) (msg : String)
  deriving DecidableEq, Repr

namespace GoError

/-- The `Error()` method: a wrapped error prints as `msg: cause`. -/
def Error : GoError → String
  | fundamental msg => msg
  | withMessage cause msg => msg ++ ": " ++ cause.Error

/-- The `Cause()` function of `pkg/errors`: the innermost wrapped error. -/
def Cause : GoError → GoError
  | fundamental msg => fundamental msg
  | withMessage cause _ => cause.Cause

end GoError

namespace errors

/-- Go `errors.Errorf(format)` with a format that has no verbs. -/
def Errorf (msg : String) : Option GoError :=
  some (GoError.fundamental msg)

/-- Go `errors.Wrap(err, message)`: `nil` stays `nil`; a non-nil error is
annotated with the message. -/
def Wrap (err : Option GoError) (message : String) : Option GoError :=
  match err with
  | none => none
  | some e => some (GoError.withMessage e message)

/-- Go `errors.Wrapf(err, format, args...)`, given the already formatted message. -/
def Wrapf (err : Option GoError) (message : String) : Option GoError :=
  Wrap err message

end errors

/-! ## Files and writers -/

/-- Go `os.O_WRONLY` (Linux value). -/
def O_WRONLY : Nat := 0x1
/-- Go `os.O_CREATE` (Linux value). -/
def O_CREATE : Nat := 0x40
/-- Go `os.O_EXCL` (Linux value). -/
def O_EXCL : Nat := 0x80
/-- Go `os.O_TRUNC` (Linux value). -/
def O_TRUNC : Nat := 0x200
/-- Go `os.O_APPEND` (Linux value). -/
def O_APPEND : Nat := 0x400

/-- Go `*os.File` values the program handles: the two inherited streams and a
file returned by `os.OpenFile name flag perm`. -/
inductive File where
  | Stdout
  | Stderr
  | opened (name : String) (flag : Nat) (perm : Nat)
  deriving DecidableEq, Repr

/-- Go `io.Writer` values the program builds: a file, or the fan-out returned by
`io.MultiWriter` (the program only ever passes files to it). -/
inductive Writer where
  | file (f : File)
  | multiWriter (writers : List File)
  deriving DecidableEq, Repr

/-- Go `io.MultiWriter(writers...)`. -/
def io.MultiWriter (writers : List File) : Writer :=
  Writer.multiWriter writers

/-- The underlying destinations a writer delivers to, in write order. -/
def Writer.dests : Writer → List File
  | Writer.file f => [f]
  | Writer.multiWriter ws => ws

/-! ## The command and the environment -/

/-- The fields of Go `exec.Cmd` the program reads or sets. -/
structure Cmd where
  Path : String
  Args : List String
  Dir : String
  Stdout : Option Writer
  Stderr : Option Writer
  deriving DecidableEq, Repr

/-- How the child ends, as the wait system call reports it: a normal exit with a
status, death by a signal, or a failure of the wait system call itself. -/
inductive ChildOutcome where
  | exited (status : Nat)
  | signaled (sig : Nat)
  | waitFailed (err : GoError)
  deriving DecidableEq, Repr

/-- The parsed command line: the three flags and `flag.Args()`. -/
structure Flags where
  logFilePath : String
  alsoToStdOut : Bool
  redirectStderr : Bool
  args : List String
  deriving DecidableEq, Repr

/-- The defaults declared with the flags (lines 33-35), with the given
positional arguments. -/
def Flags.default (args : List String) : Flags :=
  { logFilePath := "", alsoToStdOut := false, redirectStderr := true, args := args }

/-- Everything the operating system and the Go runtime decide for one run. -/
structure Env where
  /-- `os.OpenFile name flag perm`: `none` when the file opens, else the error. -/
  openFile : String → Nat → Nat → Option GoError
  /-- What `exec.Command` stores in `cmd.Path` for a given name (the name itself,
  or what `exec.LookPath` resolves it to). -/
  lookPath : String → String
  /-- `cmd.Start()`: `none` when the child is spawned, else the error. -/
  start : Cmd → Option GoError
  /-- The process id of the spawned child. -/
  pid : Nat
  /-- How the child ends. -/
  outcome : ChildOutcome
  /-- The error, if any, that `os/exec` meets while it copies the child's output
  from a pipe to a writer that is not a file; it says nothing about the exit
  status of the child. -/
  copyErr : Option GoError
  /-- `os.FindProcess pid`: `none` when the process is found, else the error. -/
  findProcess : Nat → Option GoError
  /-- `p.Signal s` on process `pid`: `none` when delivered, else the error. -/
  signal : Nat → Nat → Option GoError

/-- Go `exec.Command(name, arg...)`. -/
def exec.Command (env : Env) (name : String) (arg : List String) : Cmd :=
  { Path := env.lookPath name, Args := name :: arg, Dir := "", Stdout := none, Stderr := none }

/-- The names of the signals (Go `syscall`, Linux), by number. -/
def signalNames : List String :=
  ["", "hangup", "interrupt", "quit", "illegal instruction", "trace/breakpoint trap",
    "aborted", "bus error", "floating point exception", "killed", "user defined signal 1",
    "segmentation fault", "user defined signal 2", "broken pipe", "alarm clock", "terminated",
    "stack fault", "child exited", "continued", "stopped (signal)", "stopped",
    "stopped (tty input)", "stopped (tty output)", "urgent I/O condition",
    "CPU time limit exceeded", "file size limit exceeded", "virtual timer expired",
    "profiling timer expired", "window changed", "I/O possible", "power failure",
    "bad system call"]

/-- The `String()` of a signal, as `%v` prints it: its name, or `signal N` for
a number without one. -/
def signalString (s : Nat) : String :=
  match signalNames[s]? with
  | some name => if name = "" then "signal " ++ toString s else name
  | none => "signal " ++ toString s

/-- Whether a writer is an `*os.File`. -/
def Writer.isFile : Writer → Bool
  | Writer.file _ => true
  | Writer.multiWriter _ => false

/-- Whether `os/exec` copies the child's output itself: a stream that is a file
is handed to the child as it is; any other is fed from a pipe by a goroutine
that copies to the writer (a standard error equal to the standard output shares
its descriptor). -/
def Cmd.copies (cmd : Cmd) : Bool :=
  (match cmd.Stdout with
    | some out => !out.isFile
    | none => false) ||
  (match cmd.Stderr with
    | some err => !err.isFile
    | none => false)

/-- Go `cmd.Wait()`: the error of the wait system call; else an `ExitError` for
a child that did not exit with status zero; else the error of the copying of
the child's output, when there is copying; else `nil`. -/
def Cmd.Wait (env : Env) (cmd : Cmd) : Option GoError :=
  match env.outcome with
  | ChildOutcome.waitFailed e => some e
  | ChildOutcome.exited 0 => if cmd.copies then env.copyErr else none
  | ChildOutcome.exited (n + 1) =>
      some (GoError.fundamental ("exit status " ++ toString (n + 1)))
  | ChildOutcome.signaled s => some (GoError.fundamental ("signal: " ++ signalString s))

/-- One call of the program to the outside, with what came back. -/
inductive Event where
  | openFile (name : String) (flag : Nat) (perm : Nat) (ok : Bool)
  | logPrintf (msg : String)
  | cmdStart (cmd : Cmd) (ok : Bool)
  | goSetupSigHandler (pid : Nat)
  | cmdWait
  | logFatal (err : GoError)
  | signalNotify (sig : List Nat)
  | logPrintln (msg : String)
  | findProcess (pid : Nat) (ok : Bool)
  | processSignal (pid : Nat) (sig : Nat) (ok : Bool)
  deriving DecidableEq, Repr

/-- The outcome of `configureAndRun`: the calls made and the returned error. -/
structure Run where
  events : List Event
  err : Option GoError
  deriving DecidableEq, Repr

/-! ## The program -/

/-- Source `cmdInfo` (lines 92-100). -/
def cmdInfo (fl : Flags) (cmd : Cmd) : String :=
  "Command env: (log-file=" ++ fl.logFilePath ++ ", also-stdout=" ++ toString fl.alsoToStdOut
    ++ ", redirect-stderr=" ++ toString fl.redirectStderr ++ ")\n"
    ++ "Run from directory: " ++ cmd.Dir ++ "\n"
    ++ "Executable path: " ++ cmd.Path ++ "\n"
    ++ "Args (comma-delimited): " ++ String.intercalate "," cmd.Args

/-- Source `configureAndRun` (lines 48-89).  The early `return`s of the source
are the `Except.error` of the first stage and the error arms of the matches. -/
def configureAndRun (env : Env) (fl : Flags) : Run :=
  let flag := O_APPEND ||| O_CREATE ||| O_WRONLY
  -- lines 49-64: the output stream, or the early return of line 57
  let sinks : Except Run (List Event × Writer) :=
    if fl.logFilePath ≠ "" then
      match env.openFile fl.logFilePath flag 0o644 with
      | some err =>
        Except.error
          ⟨[Event.openFile fl.logFilePath flag 0o644 false],
            errors.Wrapf (some err) ("failed to create log file " ++ fl.logFilePath)⟩
      | none =>
        let logFile := File.opened fl.logFilePath flag 0o644
        Except.ok
          ([Event.openFile fl.logFilePath flag 0o644 true],
            if fl.alsoToStdOut then io.MultiWriter [File.Stdout, logFile]
            else Writer.file logFile)
    else Except.ok ([], Writer.file File.Stdout)
  match sinks with
  | Except.error r => r
  | Except.ok (events, outputStream) =>
    -- lines 66-68
    let errStream := if fl.redirectStderr then outputStream else Writer.file File.Stderr
    -- lines 70-88
    match fl.args with
    | [] => ⟨events, errors.Errorf "not enough arguments to run"⟩
    | exe :: exeArgs =>
      let cmd : Cmd :=
        { exec.Command env exe exeArgs with Stdout := some outputStream, Stderr := some errStream }
      let events := events ++ [Event.logPrintf ("Running command:\n" ++ cmdInfo fl cmd ++ "\n")]
      match env.start cmd with
      | some err => ⟨events ++ [Event.cmdStart cmd false], errors.Wrap (some err) "starting command"⟩
      | none =>
        ⟨events ++ [Event.cmdStart cmd true, Event.goSetupSigHandler env.pid, Event.cmdWait],
          errors.Wrap (Cmd.Wait env cmd) "running command"⟩

/-- The outcome of the whole program: the calls made and the exit status. -/
structure Exit where
  events : List Event
  status : Nat
  deriving DecidableEq, Repr

/-- Source `main` (lines 38-45), after `flag.Parse` has produced `fl`:
`log.Fatal` prints the error and exits with status 1; falling off the end of
`main` exits with status 0. -/
def main (env : Env) (fl : Flags) : Exit :=
  let r := configureAndRun env fl
  match r.err with
  | some err => ⟨r.events ++ [Event.logFatal err], 1⟩
  | none => ⟨r.events, 0⟩

/-! ## The signal listener -/

/-- Go `os.Interrupt`, which is `syscall.SIGINT`. -/
def os.Interrupt : Nat := 2

/-- Go `syscall.SIGTERM`. -/
def SIGTERM : Nat := 15

/-- The signals on which a Go program that has not registered for them ends:
`SIGHUP`, `SIGINT` and `SIGTERM` make the runtime exit, `SIGQUIT`, `SIGILL`,
`SIGTRAP`, `SIGABRT`, `SIGBUS`, `SIGFPE`, `SIGSEGV`, `SIGSTKFLT` and `SIGSYS`
make it exit with a stack dump, and `SIGKILL` is the kernel's.  Any other signal
is caught with no action, or suspends the program until it is continued. -/
def runtimeKills (s : Nat) : Bool :=
  decide (s ∈ [1, 2, 3, 4, 5, 6, 7, 8, 9, 11, 15, 16, 31])

/-- Whether a signal listed in `sig` is relayed: `SIGKILL` (9) and `SIGSTOP` (19)
cannot be caught, and registering for them has no effect. -/
def registered (sig : List Nat) (s : Nat) : Bool :=
  decide (s ∈ sig) && decide (s ≠ 9) && decide (s ≠ 19)

/-- Go `signal.Notify(c, sig...)`: the signals relayed to the channel, in order
of arrival, out of the signals that reach the process.  A registered signal is
relayed; a signal that is not registered and ends the program ends the relaying
with it; any other signal is passed over.  (The channel holds one signal: the
first one relayed is the one a receive gets.) -/
def signal.Notify (sig : List Nat) : List Nat → List Nat
  | [] => []
  | s :: rest =>
    if registered sig s then s :: signal.Notify sig rest
    else if runtimeKills s then []
    else signal.Notify sig rest

/-- The signal, if any, that ends the program while nothing has yet been relayed
to the channel: the first signal to arrive that is not passed over, when it is
not a registered one. -/
def killedWaiting (sig : List Nat) : List Nat → Option Nat
  | [] => none
  | s :: rest =>
    if registered sig s then none
    else if runtimeKills s then some s
    else killedWaiting sig rest

/-- The outcome of `setupSigHandler`: the calls made, and whether the function
returned (it has not when it is still blocked on the channel receive, or when
the program ended while it was). -/
structure Listener where
  events : List Event
  returned : Bool
  deriving DecidableEq, Repr

/-- Source `setupSigHandler` (lines 104-122), run against the signals that reach
the parent process while the listener is alive; the lookup and the send that
follow a receive are taken to complete before a later signal acts. -/
def setupSigHandler (env : Env) (pid : Nat) (incoming : List Nat) : Listener :=
  let c := signal.Notify [os.Interrupt] incoming
  let events := [Event.signalNotify [os.Interrupt], Event.logPrintln "Now listening for interrupts"]
  -- line 110: the receive blocks until the channel holds a signal
  match c with
  | [] => ⟨events, false⟩
  | s :: _ =>
    let events := events ++ [Event.logPrintf
      ("Got signal: " ++ signalString s ++ ". Shutting down test process (PID: "
        ++ toString pid ++ ")\n")]
    match env.findProcess pid with
    | some _ =>
      ⟨events ++ [Event.findProcess pid false,
          Event.logPrintf ("Could not find process " ++ toString pid ++ " to shut down.\n")],
        true⟩
    | none =>
      match env.signal pid s with
      | some err =>
        ⟨events ++ [Event.findProcess pid true, Event.processSignal pid s false,
            Event.logPrintf ("Failed to signal test process to terminate: " ++ err.Error ++ "\n")],
          true⟩
      | none =>
        ⟨events ++ [Event.findProcess pid true, Event.processSignal pid s true,
            Event.logPrintf
              ("Signalled process " ++ toString pid ++ " to terminate successfully.\n")],
          true⟩

/-! ## Observations on a run -/

/-- The command handed to `cmd.Start`, if the run got that far. -/
def Run.cmd (r : Run) : Option Cmd :=
  r.events.findSome? (fun e => match e with
    | Event.cmdStart c _ => some c
    | _ => none)

/-- Whether an event is a call of `cmd.Start`. -/
def Event.isStart : Event → Bool
  | Event.cmdStart _ _ => true
  | _ => false

/-- Whether an event is a successful `cmd.Start`: a child process exists. -/
def Event.isSpawn : Event → Bool
  | Event.cmdStart _ ok => ok
  | _ => false

/-- Whether an event starts the signal listener. -/
def Event.isListener : Event → Bool
  | Event.goSetupSigHandler _ => true
  | _ => false

/-- Whether an event sends a signal to a process. -/
def Event.isSignal : Event → Bool
  | Event.processSignal _ _ _ => true
  | _ => false

/-- Whether an event looks a process up. -/
def Event.isFind : Event → Bool
  | Event.findProcess _ _ => true
  | _ => false

/-! ## The operating system's files and streams -/

/-- A byte string. -/
abbrev Bytes := List Nat

/-- The state the child's output lands in: the files by path, the position of
the descriptor opened on each path, and what has been written to the two
inherited streams. -/
structure World where
  files : String → Option Bytes
  offset : String → Nat
  stdout : Bytes
  stderr : Bytes

/-- Whether `flag` has the bit `bit` set. -/
def hasFlag (flag bit : Nat) : Bool :=
  flag &&& bit ≠ 0

/-- The effect of `open(2)` on the world: an absent file is created empty when
`O_CREATE` is given and the open fails otherwise; a present file is emptied when
`O_TRUNC` is given and refused when both `O_CREATE` and `O_EXCL` are; the
descriptor starts at position 0. -/
def World.openFile (w : World) (name : String) (flag : Nat) : Option World :=
  match w.files name with
  | none =>
    if hasFlag flag O_CREATE then
      some { w with files := Function.update w.files name (some []),
                    offset := Function.update w.offset name 0 }
    else none
  | some _ =>
    if hasFlag flag O_CREATE && hasFlag flag O_EXCL then none
    else if hasFlag flag O_TRUNC then
      some { w with files := Function.update w.files name (some []),
                    offset := Function.update w.offset name 0 }
    else some { w with offset := Function.update w.offset name 0 }

/-- The effect of `write(2)` through a file: an inherited stream takes the bytes
at its end; a descriptor opened with `O_APPEND` writes at the end of the file
whatever its position; any other descriptor overwrites from its position on. -/
def World.writeFile (w : World) (f : File) (b : Bytes) : World :=
  match f with
  | File.Stdout => { w with stdout := w.stdout ++ b }
  | File.Stderr => { w with stderr := w.stderr ++ b }
  | File.opened name flag _ =>
    let old := (w.files name).getD []
    let pos := if hasFlag flag O_APPEND then old.length else w.offset name
    { w with files := Function.update w.files name
                        (some (old.take pos ++ b ++ old.drop (pos + b.length))),
             offset := Function.update w.offset name (pos + b.length) }

/-- The effect of one `Write` on a writer: a fan-out writes the same bytes to
each of its files in turn (every write is taken to succeed). -/
def World.write (w : World) (out : Writer) (b : Bytes) : World :=
  match out with
  | Writer.file f => w.writeFile f b
  | Writer.multiWriter ws => ws.foldl (fun w f => w.writeFile f b) w

/-- One write of the child: the descriptor (1 for standard output, 2 for
standard error) and the bytes. -/
abbrev ChildWrite := Nat × Bytes

/-- The effect of the child's writes, in order, through the streams wired into
the command; a stream left `nil` discards what is written to it. -/
def Cmd.deliver (cmd : Cmd) (w : World) (writes : List ChildWrite) : World :=
  writes.foldl (fun w cw =>
    match (if cw.1 = 1 then cmd.Stdout else if cw.1 = 2 then cmd.Stderr else none) with
    | some out => w.write out cw.2
    | none => w) w

/-- The bytes of the given descriptors, in write order. -/
def bytesOf (fds : List Nat) (writes : List ChildWrite) : Bytes :=
  (writes.filter (fun cw => decide (cw.1 ∈ fds))).flatMap (fun cw => cw.2)

/-- An environment in which everything succeeds and the child exits with `status`. -/
def Env.ok (status : Nat) : Env :=
  { openFile := fun _ _ _ => none
    lookPath := fun name => name
    start := fun _ => none
    pid := 4242
    outcome := ChildOutcome.exited status
    copyErr := none
    findProcess := fun _ => none
    signal := fun _ _ => none }

/-- An environment in which no file can be opened and everything else succeeds. -/
def Env.noOpen : Env :=
  { Env.ok 0 with
    openFile := fun name _ _ =>
      some (GoError.fundamental ("open " ++ name ++ ": no such file or directory")) }

/-- An environment in which the child cannot be started. -/
def Env.noStart : Env :=
  { Env.ok 0 with
    start := fun cmd =>
      some (GoError.fundamental ("exec: " ++ cmd.Path ++ ": file does not exist")) }

/-- A configuration with a log file in a directory that does not exist and no
positional arguments. -/
def flagsBadLogNoArgs : Flags :=
  { logFilePath := "/nonexistent/run.log", alsoToStdOut := false, redirectStderr := true,
    args := [] }

/-- A configuration with a log file in a directory that does not exist and a
command to run. -/
def flagsBadLog : Flags :=
  { logFilePath := "/nonexistent/run.log", alsoToStdOut := false, redirectStderr := true,
    args := ["/bin/echo", "hi"] }

/-- A configuration that logs to a file and to the inherited standard output. -/
def flagsTee : Flags :=
  { logFilePath := "/tmp/run.log", alsoToStdOut := true, redirectStderr := true,
    args := ["/bin/echo", "hi"] }

/-- A configuration that logs standard output to a file and leaves standard
error on the inherited stream. -/
def flagsSplit : Flags :=
  { logFilePath := "/tmp/run.log", alsoToStdOut := false, redirectStderr := false,
    args := ["/bin/echo", "hi"] }

/-- An environment in which the child exits with status 0 and the copying of its
output to the fan-out fails. -/
def Env.copyFails : Env :=
  { Env.ok 0 with
    copyErr := some (GoError.fundamental "write /dev/stdout: broken pipe") }

/-- An environment in which the child has gone by the time it is signalled. -/
def Env.noSignal : Env :=
  { Env.ok 0 with
    signal := fun _ _ => some (GoError.fundamental "os: process already finished") }

/-- A world in which the log file of `flagsTee` holds three bytes. -/
def worldWithLog : World :=
  { files := fun name => if name = "/tmp/run.log" then some [104, 105, 10] else none
    offset := fun _ => 0
    stdout := []
    stderr := [] }

/-! ## Closed forms of the pieces of a run -/

/-- The flag the program opens the log file with (line 55). -/
def logFlag : Nat := O_APPEND ||| O_CREATE ||| O_WRONLY

/-- The log file of a configuration, as `os.OpenFile` returns it (line 55). -/
def logFileOf (fl : Flags) : File :=
  File.opened fl.logFilePath logFlag 0o644

/-- Whether the run gets past the opening of the log file: there is none to
open, or it opens. -/
def logOpens (env : Env) (fl : Flags) : Bool :=
  decide (fl.logFilePath = "") || (env.openFile fl.logFilePath logFlag 0o644).isNone

/-- The calls made by lines 54-64 when the run gets past them. -/
def openEvents (fl : Flags) : List Event :=
  if fl.logFilePath = "" then [] else [Event.openFile fl.logFilePath logFlag 0o644 true]

/-- The value of `outputStream` after line 64. -/
def outputStreamOf (fl : Flags) : Writer :=
  if fl.logFilePath = "" then Writer.file File.Stdout
  else if fl.alsoToStdOut then io.MultiWriter [File.Stdout, logFileOf fl]
  else Writer.file (logFileOf fl)

/-- The value of `errStream` after line 68. -/
def errStreamOf (fl : Flags) : Writer :=
  if fl.redirectStderr then outputStreamOf fl else Writer.file File.Stderr

/-- The value of `cmd` after line 78. -/
def cmdOf (env : Env) (fl : Flags) (exe : String) (exeArgs : List String) : Cmd :=
  { exec.Command env exe exeArgs with
    Stdout := some (outputStreamOf fl), Stderr := some (errStreamOf fl) }

/-- The diagnostic of line 80. -/
def runningEvent (env : Env) (fl : Flags) (exe : String) (exeArgs : List String) : Event :=
  Event.logPrintf ("Running command:\n" ++ cmdInfo fl (cmdOf env fl exe exeArgs) ++ "\n")

/-! ## The run, case by case -/

theorem configureAndRun_openFail (env : Env) (fl : Flags) (e : GoError)
    (hp : fl.logFilePath ≠ "") (ho : env.openFile fl.logFilePath logFlag 0o644 = some e) :
    configureAndRun env fl =
      ⟨[Event.openFile fl.logFilePath logFlag 0o644 false],
        some (GoError.withMessage e ("failed to create log file " ++ fl.logFilePath))⟩ := by
  unfold logFlag at ho
  simp [configureAndRun, hp, ho, errors.Wrapf, errors.Wrap, logFlag]

theorem logOpens_false (env : Env) (fl : Flags) (h : logOpens env fl = false) :
    fl.logFilePath ≠ "" ∧ ∃ e, env.openFile fl.logFilePath logFlag 0o644 = some e := by
  unfold logOpens at h
  simp only [Bool.or_eq_false_iff, decide_eq_false_iff_not] at h
  refine ⟨h.1, ?_⟩
  cases ho : env.openFile fl.logFilePath logFlag 0o644 with
  | none => rw [ho] at h; simp at h
  | some e => exact ⟨e, rfl⟩

theorem configureAndRun_noArgs (env : Env) (fl : Flags)
    (ho : logOpens env fl = true) (ha : fl.args = []) :
    configureAndRun env fl = ⟨openEvents fl, errors.Errorf "not enough arguments to run"⟩ := by
  unfold logOpens logFlag at ho
  by_cases hp : fl.logFilePath = ""
  · simp [configureAndRun, hp, ha, openEvents]
  · simp only [hp, decide_False, Bool.false_or, Option.isNone_iff_eq_none] at ho
    simp [configureAndRun, hp, ho, ha, openEvents, logFlag]

theorem configureAndRun_args (env : Env) (fl : Flags) (exe : String) (exeArgs : List String)
    (ho : logOpens env fl = true) (ha : fl.args = exe :: exeArgs) :
    configureAndRun env fl =
      match env.start (cmdOf env fl exe exeArgs) with
      | some e =>
        ⟨openEvents fl ++ [runningEvent env fl exe exeArgs,
            Event.cmdStart (cmdOf env fl exe exeArgs) false],
          some (GoError.withMessage e "starting command")⟩
      | none =>
        ⟨openEvents fl ++ [runningEvent env fl exe exeArgs,
            Event.cmdStart (cmdOf env fl exe exeArgs) true,
            Event.goSetupSigHandler env.pid, Event.cmdWait],
          errors.Wrap (Cmd.Wait env (cmdOf env fl exe exeArgs)) "running command"⟩ := by
  unfold logOpens logFlag at ho
  by_cases hp : fl.logFilePath = ""
  · simp [configureAndRun, hp, ha, openEvents, runningEvent, cmdOf, outputStreamOf,
      errStreamOf, errors.Wrap]
  · simp only [hp, decide_False, Bool.false_or, Option.isNone_iff_eq_none] at ho
    simp [configureAndRun, hp, ho, ha, openEvents, runningEvent, cmdOf, outputStreamOf,
      errStreamOf, errors.Wrap, logFileOf, logFlag]

theorem configureAndRun_startFail (env : Env) (fl : Flags) (exe : String)
    (exeArgs : List String) (e : GoError)
    (ho : logOpens env fl = true) (ha : fl.args = exe :: exeArgs)
    (hs : env.start (cmdOf env fl exe exeArgs) = some e) :
    configureAndRun env fl =
      ⟨openEvents fl ++ [runningEvent env fl exe exeArgs,
          Event.cmdStart (cmdOf env fl exe exeArgs) false],
        some (GoError.withMessage e "starting command")⟩ := by
  rw [configureAndRun_args env fl exe exeArgs ho ha, hs]

theorem configureAndRun_started (env : Env) (fl : Flags) (exe : String)
    (exeArgs : List String)
    (ho : logOpens env fl = true) (ha : fl.args = exe :: exeArgs)
    (hs : env.start (cmdOf env fl exe exeArgs) = none) :
    configureAndRun env fl =
      ⟨openEvents fl ++ [runningEvent env fl exe exeArgs,
          Event.cmdStart (cmdOf env fl exe exeArgs) true,
          Event.goSetupSigHandler env.pid, Event.cmdWait],
        errors.Wrap (Cmd.Wait env (cmdOf env fl exe exeArgs)) "running command"⟩ := by
  rw [configureAndRun_args env fl exe exeArgs ho ha, hs]

/-- Every run is one of four: the log file does not open, there is nothing to
run, the child does not start, or the child is started and waited for. -/
theorem configureAndRun_cases (env : Env) (fl : Flags) :
    (∃ e, fl.logFilePath ≠ "" ∧ env.openFile fl.logFilePath logFlag 0o644 = some e ∧
      logOpens env fl = false ∧
      configureAndRun env fl =
        ⟨[Event.openFile fl.logFilePath logFlag 0o644 false],
          some (GoError.withMessage e ("failed to create log file " ++ fl.logFilePath))⟩) ∨
    (logOpens env fl = true ∧ fl.args = [] ∧
      configureAndRun env fl =
        ⟨openEvents fl, errors.Errorf "not enough arguments to run"⟩) ∨
    (∃ exe exeArgs e, logOpens env fl = true ∧ fl.args = exe :: exeArgs ∧
      env.start (cmdOf env fl exe exeArgs) = some e ∧
      configureAndRun env fl =
        ⟨openEvents fl ++ [runningEvent env fl exe exeArgs,
            Event.cmdStart (cmdOf env fl exe exeArgs) false],
          some (GoError.withMessage e "starting command")⟩) ∨
    (∃ exe exeArgs, logOpens env fl = true ∧ fl.args = exe :: exeArgs ∧
      env.start (cmdOf env fl exe exeArgs) = none ∧
      configureAndRun env fl =
        ⟨openEvents fl ++ [runningEvent env fl exe exeArgs,
            Event.cmdStart (cmdOf env fl exe exeArgs) true,
            Event.goSetupSigHandler env.pid, Event.cmdWait],
          errors.Wrap (Cmd.Wait env (cmdOf env fl exe exeArgs)) "running command"⟩) := by
  cases ho : logOpens env fl with
  | false =>
    obtain ⟨hp, e, he⟩ := logOpens_false env fl ho
    exact Or.inl ⟨e, hp, he, rfl, configureAndRun_openFail env fl e hp he⟩
  | true =>
    cases ha : fl.args with
    | nil => exact Or.inr (Or.inl ⟨rfl, rfl, configureAndRun_noArgs env fl ho ha⟩)
    | cons exe exeArgs =>
      cases hs : env.start (cmdOf env fl exe exeArgs) with
      | some e =>
        exact Or.inr (Or.inr (Or.inl ⟨exe, exeArgs, e, rfl, rfl, hs,
          configureAndRun_startFail env fl exe exeArgs e ho ha hs⟩))
      | none =>
        exact Or.inr (Or.inr (Or.inr ⟨exe, exeArgs, rfl, rfl, hs,
          configureAndRun_started env fl exe exeArgs ho ha hs⟩))

theorem openEvents_any_isSpawn (fl : Flags) : (openEvents fl).any Event.isSpawn = false := by
  unfold openEvents
  split <;> simp [Event.isSpawn]

theorem openEvents_any_isStart (fl : Flags) : (openEvents fl).any Event.isStart = false := by
  unfold openEvents
  split <;> simp [Event.isStart]

theorem openEvents_any_isListener (fl : Flags) :
    (openEvents fl).any Event.isListener = false := by
  unfold openEvents
  split <;> simp [Event.isListener]

theorem cmdOf_copies (env : Env) (fl : Flags) (exe : String) (exeArgs : List String) :
    (cmdOf env fl exe exeArgs).copies = true ↔
      (fl.logFilePath ≠ "" ∧ fl.alsoToStdOut = true) := by
  by_cases hp : fl.logFilePath = ""
  · cases hr : fl.redirectStderr <;>
      simp [Cmd.copies, cmdOf, outputStreamOf, errStreamOf, hp, hr, Writer.isFile]
  · cases ha : fl.alsoToStdOut <;> cases hr : fl.redirectStderr <;>
      simp [Cmd.copies, cmdOf, outputStreamOf, errStreamOf, hp, ha, hr, Writer.isFile,
        io.MultiWriter]

theorem Wait_eq_none_iff (env : Env) (fl : Flags) (exe : String) (exeArgs : List String) :
    Cmd.Wait env (cmdOf env fl exe exeArgs) = none ↔
      (env.outcome = ChildOutcome.exited 0 ∧
        (fl.logFilePath ≠ "" ∧ fl.alsoToStdOut = true → env.copyErr = none)) := by
  have hc := cmdOf_copies env fl exe exeArgs
  unfold Cmd.Wait
  cases ho : env.outcome with
  | exited n =>
    cases n with
    | zero =>
      by_cases h : (cmdOf env fl exe exeArgs).copies = true
      · simp only [h, if_true, true_and]
        exact ⟨fun h1 _ => h1, fun h1 => h1 (hc.mp h)⟩
      · simp only [h, Bool.false_eq_true, if_false, true_and]
        exact ⟨fun _ h2 => absurd (hc.mpr h2) h, fun _ => trivial⟩
    | succ m => simp
  | signaled s => simp
  | waitFailed e => simp

theorem Wrap_eq_none_iff (err : Option GoError) (msg : String) :
    errors.Wrap err msg = none ↔ err = none := by
  cases err <;> simp [errors.Wrap]

theorem cmd_of_args (env : Env) (fl : Flags) (exe : String) (exeArgs : List String)
    (ho : logOpens env fl = true) (ha : fl.args = exe :: exeArgs) :
    (configureAndRun env fl).cmd = some (cmdOf env fl exe exeArgs) := by
  rw [configureAndRun_args env fl exe exeArgs ho ha]
  cases env.start (cmdOf env fl exe exeArgs) <;>
    (simp only [Run.cmd, openEvents, runningEvent]; split <;> simp)

theorem hasFlag_logFlag :
    hasFlag logFlag O_APPEND = true ∧ hasFlag logFlag O_CREATE = true ∧
    hasFlag logFlag O_WRONLY = true ∧ hasFlag logFlag O_TRUNC = false ∧
    hasFlag logFlag O_EXCL = false := by
  decide

/-! ## Writes -/

theorem writeFile_append (w : World) (name : String) (flag perm : Nat) (b : Bytes)
    (h : hasFlag flag O_APPEND = true) :
    w.writeFile (File.opened name flag perm) b =
      { w with files := Function.update w.files name (some ((w.files name).getD [] ++ b)),
               offset := Function.update w.offset name
                 (((w.files name).getD []).length + b.length) } := by
  have hd : List.drop (((w.files name).getD []).length + b.length) ((w.files name).getD []) = [] :=
    List.drop_eq_nil_of_le (Nat.le_add_right _ _)
  simp [World.writeFile, h, hd]

theorem write_logFile (w : World) (fl : Flags) (b : Bytes) :
    (w.write (Writer.file (logFileOf fl)) b).files fl.logFilePath =
        some ((w.files fl.logFilePath).getD [] ++ b) ∧
    (∀ name, name ≠ fl.logFilePath →
      (w.write (Writer.file (logFileOf fl)) b).files name = w.files name) ∧
    (w.write (Writer.file (logFileOf fl)) b).stdout = w.stdout ∧
    (w.write (Writer.file (logFileOf fl)) b).stderr = w.stderr := by
  unfold logFileOf
  simp only [World.write]
  rw [writeFile_append w _ _ _ b hasFlag_logFlag.1]
  refine ⟨by simp, ?_, rfl, rfl⟩
  intro name hn
  simp [Function.update, hn]

theorem write_tee (w : World) (fl : Flags) (b : Bytes) :
    (w.write (io.MultiWriter [File.Stdout, logFileOf fl]) b).files fl.logFilePath =
        some ((w.files fl.logFilePath).getD [] ++ b) ∧
    (∀ name, name ≠ fl.logFilePath →
      (w.write (io.MultiWriter [File.Stdout, logFileOf fl]) b).files name = w.files name) ∧
    (w.write (io.MultiWriter [File.Stdout, logFileOf fl]) b).stdout = w.stdout ++ b ∧
    (w.write (io.MultiWriter [File.Stdout, logFileOf fl]) b).stderr = w.stderr := by
  unfold io.MultiWriter logFileOf
  simp only [World.write, List.foldl_cons, List.foldl_nil]
  rw [writeFile_append _ _ _ _ b hasFlag_logFlag.1]
  refine ⟨by simp [World.writeFile], ?_, rfl, rfl⟩
  intro name hn
  simp [Function.update, hn, World.writeFile]

theorem write_Stdout (w : World) (b : Bytes) :
    w.write (Writer.file File.Stdout) b = { w with stdout := w.stdout ++ b } := rfl

theorem write_Stderr (w : World) (b : Bytes) :
    w.write (Writer.file File.Stderr) b = { w with stderr := w.stderr ++ b } := rfl

theorem write_outputStreamOf_stderr (w : World) (fl : Flags) (b : Bytes) :
    (w.write (outputStreamOf fl) b).stderr = w.stderr := by
  unfold outputStreamOf
  split
  · rfl
  · split
    · exact (write_tee w fl b).2.2.2
    · exact (write_logFile w fl b).2.2.2

theorem write_outputStreamOf_file (w : World) (fl : Flags) (b : Bytes)
    (hp : fl.logFilePath ≠ "") :
    (w.write (outputStreamOf fl) b).files fl.logFilePath =
      some ((w.files fl.logFilePath).getD [] ++ b) := by
  unfold outputStreamOf
  rw [if_neg hp]
  split
  · exact (write_tee w fl b).1
  · exact (write_logFile w fl b).1

theorem outputStreamOf_dests (fl : Flags) : File.Stderr ∉ (outputStreamOf fl).dests := by
  unfold outputStreamOf
  split
  · simp [Writer.dests]
  · split <;> simp [Writer.dests, io.MultiWriter, logFileOf]

theorem deliver_nil (cmd : Cmd) (w : World) : cmd.deliver w [] = w := rfl

theorem deliver_cons (cmd : Cmd) (w : World) (cw : ChildWrite) (ws : List ChildWrite) :
    cmd.deliver w (cw :: ws) =
      cmd.deliver
        (match (if cw.1 = 1 then cmd.Stdout else if cw.1 = 2 then cmd.Stderr else none) with
          | some out => w.write out cw.2
          | none => w) ws := rfl

theorem bytesOf_cons (fds : List Nat) (cw : ChildWrite) (ws : List ChildWrite) :
    bytesOf fds (cw :: ws) = (if cw.1 ∈ fds then cw.2 else []) ++ bytesOf fds ws := by
  unfold bytesOf
  by_cases h : cw.1 ∈ fds
  · simp [List.filter_cons, h]
  · simp [List.filter_cons, h]

/-- What the child's writes leave in the log file: the bytes written to standard
output, and those written to standard error when it is redirected, after what
the file held. -/
theorem deliver_logFile (env : Env) (fl : Flags) (exe : String) (exeArgs : List String)
    (hp : fl.logFilePath ≠ "") (writes : List ChildWrite) :
    ∀ (w : World) (P : Bytes), w.files fl.logFilePath = some P →
      ((cmdOf env fl exe exeArgs).deliver w writes).files fl.logFilePath =
        some (P ++ bytesOf (if fl.redirectStderr then [1, 2] else [1]) writes) := by
  induction writes with
  | nil =>
    intro w P hP
    simp [deliver_nil, bytesOf, hP]
  | cons cw ws ih =>
    intro w P hP
    rw [deliver_cons, bytesOf_cons]
    have hout : (w.write (outputStreamOf fl) cw.2).files fl.logFilePath = some (P ++ cw.2) := by
      rw [write_outputStreamOf_file w fl cw.2 hp, hP]
      rfl
    by_cases h1 : cw.1 = 1
    · have hmem : cw.1 ∈ (if fl.redirectStderr then [1, 2] else [1]) := by
        rw [h1]; split <;> simp
      rw [if_pos hmem, ← List.append_assoc]
      simp only [h1, if_true, cmdOf]
      exact ih _ _ hout
    · by_cases h2 : cw.1 = 2
      · cases hr : fl.redirectStderr with
        | true =>
          have hS : (cmdOf env fl exe exeArgs).Stderr = some (outputStreamOf fl) := by
            simp [cmdOf, errStreamOf, hr]
          have := ih (w.write (outputStreamOf fl) cw.2) (P ++ cw.2) hout
          rw [hr] at this
          simp only [h2, hS, (by decide : ¬ (2 : Nat) = 1), if_true, if_false]
          simpa using this
        | false =>
          have hS : (cmdOf env fl exe exeArgs).Stderr = some (Writer.file File.Stderr) := by
            simp [cmdOf, errStreamOf, hr]
          have := ih (w.write (Writer.file File.Stderr) cw.2) P (by rw [write_Stderr]; exact hP)
          rw [hr] at this
          simp only [h2, hS, (by decide : ¬ (2 : Nat) = 1), if_true, if_false]
          simpa using this
      · have hmem : cw.1 ∉ (if fl.redirectStderr then [1, 2] else [1]) := by
          split <;> simp [h1, h2]
        rw [if_neg hmem]
        simp only [h1, h2, if_false, List.nil_append]
        exact ih w P hP

theorem openFile_logFlag (w : World) (name : String) :
    w.openFile name logFlag =
      some { w with
        files := Function.update w.files name (some ((w.files name).getD [])),
        offset := Function.update w.offset name 0 } := by
  unfold World.openFile
  cases h : w.files name with
  | none => simp [hasFlag_logFlag.2.1]
  | some c =>
    simp only [hasFlag_logFlag.2.2.2.2, hasFlag_logFlag.2.2.2.1, Bool.and_false,
      Bool.false_eq_true, if_false, Option.getD_some]
    rw [← h, Function.update_eq_self]

/-! ## The signals relayed -/

theorem registered_interrupt (x : Nat) :
    registered [os.Interrupt] x = true ↔ x = os.Interrupt := by
  unfold registered os.Interrupt
  constructor
  · intro h
    simp only [List.mem_singleton, Bool.and_eq_true, decide_eq_true_eq] at h
    exact h.1.1
  · intro h
    subst h
    decide

theorem notify_nil (sig : List Nat) : signal.Notify sig [] = [] := rfl

theorem notify_cons (sig : List Nat) (x : Nat) (xs : List Nat) :
    signal.Notify sig (x :: xs) =
      if registered sig x then x :: signal.Notify sig xs
      else if runtimeKills x then [] else signal.Notify sig xs := rfl

theorem killedWaiting_cons (sig : List Nat) (x : Nat) (xs : List Nat) :
    killedWaiting sig (x :: xs) =
      if registered sig x then none
      else if runtimeKills x then some x else killedWaiting sig xs := rfl

theorem notify_mem (sig : List Nat) (incoming : List Nat) :
    ∀ s, s ∈ signal.Notify sig incoming → registered sig s = true ∧ s ∈ incoming := by
  induction incoming with
  | nil => intro s h; simp [notify_nil] at h
  | cons x xs ih =>
    intro s h
    rw [notify_cons] at h
    by_cases hx : registered sig x = true
    · rw [if_pos hx] at h
      rcases List.mem_cons.mp h with h1 | h1
      · subst h1
        exact ⟨hx, List.mem_cons_self _ _⟩
      · exact ⟨(ih s h1).1, List.mem_cons_of_mem _ (ih s h1).2⟩
    · rw [if_neg hx] at h
      by_cases hk : runtimeKills x = true
      · rw [if_pos hk] at h
        simp at h
      · rw [if_neg hk] at h
        exact ⟨(ih s h).1, List.mem_cons_of_mem _ (ih s h).2⟩

/-- A signal is the first one relayed exactly when it is registered and every
signal that arrived before it was passed over. -/
theorem notify_split (sig : List Nat) (incoming : List Nat) :
    ∀ s rest, signal.Notify sig incoming = s :: rest →
      ∃ before after, incoming = before ++ s :: after ∧ registered sig s = true ∧
        ∀ x ∈ before, registered sig x = false ∧ runtimeKills x = false := by
  induction incoming with
  | nil => intro s rest h; simp [notify_nil] at h
  | cons x xs ih =>
    intro s rest h
    rw [notify_cons] at h
    by_cases hx : registered sig x = true
    · rw [if_pos hx] at h
      have hxs : x = s := (List.cons.inj h).1
      subst hxs
      exact ⟨[], xs, rfl, hx, by simp⟩
    · rw [if_neg hx] at h
      by_cases hk : runtimeKills x = true
      · rw [if_pos hk] at h
        cases h
      · rw [if_neg hk] at h
        obtain ⟨before, after, h1, h2, h3⟩ := ih s rest h
        refine ⟨x :: before, after, by rw [h1]; rfl, h2, ?_⟩
        intro y hy
        rcases List.mem_cons.mp hy with hy1 | hy1
        · subst hy1
          exact ⟨by simpa using hx, by simpa using hk⟩
        · exact h3 y hy1

theorem notify_of_split (sig : List Nat) (s : Nat) (after : List Nat)
    (hs : registered sig s = true) (before : List Nat) :
    (∀ x ∈ before, registered sig x = false ∧ runtimeKills x = false) →
      signal.Notify sig (before ++ s :: after) = s :: signal.Notify sig after := by
  induction before with
  | nil =>
    intro _
    rw [List.nil_append, notify_cons, if_pos hs]
  | cons x xs ih =>
    intro hb
    have hx := hb x (List.mem_cons_self _ _)
    rw [List.cons_append, notify_cons, hx.1, hx.2]
    simp only [Bool.false_eq_true, if_false]
    exact ih (fun y hy => hb y (List.mem_cons_of_mem _ hy))

/-- A signal that ends the program before anything was relayed leaves nothing
relayed. -/
theorem killedWaiting_notify (sig : List Nat) (incoming : List Nat) :
    ∀ k, killedWaiting sig incoming = some k →
      signal.Notify sig incoming = [] ∧ registered sig k = false ∧ runtimeKills k = true ∧
        k ∈ incoming := by
  induction incoming with
  | nil => intro k h; cases h
  | cons x xs ih =>
    intro k h
    rw [killedWaiting_cons] at h
    rw [notify_cons]
    by_cases hx : registered sig x = true
    · rw [if_pos hx] at h
      cases h
    · rw [if_neg hx] at h
      rw [if_neg hx]
      by_cases hk : runtimeKills x = true
      · rw [if_pos hk] at h
        cases h
        rw [if_pos hk]
        exact ⟨rfl, by simpa using hx, hk, List.mem_cons_self _ _⟩
      · rw [if_neg hk] at h
        rw [if_neg hk]
        obtain ⟨h1, h2, h3, h4⟩ := ih k h
        exact ⟨h1, h2, h3, List.mem_cons_of_mem _ h4⟩

theorem listener_exact (env : Env) (fl : Flags) :
    (configureAndRun env fl).events.filter Event.isListener =
      if (configureAndRun env fl).events.any Event.isSpawn then
        [Event.goSetupSigHandler env.pid]
      else [] := by
  have hoe : (openEvents fl).filter Event.isListener = [] := by
    unfold openEvents
    split <;> simp [Event.isListener]
  rcases configureAndRun_cases env fl with ⟨e, _, _, _, hr⟩ | ⟨_, _, hr⟩ |
      ⟨exe, exeArgs, e, _, _, _, hr⟩ | ⟨exe, exeArgs, _, _, _, hr⟩
  · rw [hr]; simp [Event.isListener, Event.isSpawn]
  · rw [hr]; simp [hoe, openEvents_any_isSpawn]
  · rw [hr]
    simp [List.filter_append, List.any_append, hoe, openEvents_any_isSpawn, Event.isListener,
      Event.isSpawn, runningEvent]
  · rw [hr]
    simp [List.filter_append, List.any_append, hoe, openEvents_any_isSpawn, Event.isListener,
      Event.isSpawn, runningEvent]

/-! ## The listener within a run -/

theorem listener_once (env : Env) (fl : Flags) :
    ((configureAndRun env fl).events.filter Event.isListener).length ≤ 1 := by
  have hoe : (openEvents fl).filter Event.isListener = [] := by
    unfold openEvents
    split <;> simp [Event.isListener]
  rcases configureAndRun_cases env fl with ⟨e, _, _, _, hr⟩ | ⟨_, _, hr⟩ |
      ⟨exe, exeArgs, e, _, _, _, hr⟩ | ⟨exe, exeArgs, _, _, _, hr⟩
  · rw [hr]; simp [Event.isListener]
  · rw [hr, hoe]; simp
  · rw [hr]; simp [List.filter_append, hoe, Event.isListener, runningEvent]
  · rw [hr]; simp [List.filter_append, hoe, Event.isListener, runningEvent]

theorem result_independent (env : Env) (fl : Flags) (find : Nat → Option GoError)
    (sig : Nat → Nat → Option GoError) :
    configureAndRun { env with findProcess := find, signal := sig } fl =
      configureAndRun env fl := rfl

/-! ## The exit status -/

/-- C1 as stated fails: with a log file and also-stdout the child's output is
copied to the fan-out by `os/exec`, and when that copying fails `cmd.Wait`
returns its error for a child that was spawned and exited with status 0, so the
program exits with status 1. -/
theorem C1_counterexample :
    (configureAndRun Env.copyFails flagsTee).events.any Event.isSpawn = true ∧
    Env.copyFails.outcome = ChildOutcome.exited 0 ∧
    (main Env.copyFails flagsTee).status = 1 ∧
    (configureAndRun Env.copyFails flagsTee).err =
      some (GoError.withMessage (GoError.fundamental "write /dev/stdout: broken pipe")
        "running command") := by
  refine ⟨by decide, rfl, by decide, by decide⟩

/-- C1, amended: the program exits with status 0 exactly when a child was
spawned, exited with status 0 and, in the configuration with a log file and
also-stdout, the copying of its output did not fail.  The status is 0 or 1; it
is 0 exactly when `configureAndRun` returns no error.  In every other
configuration, and whenever the copying does not fail, it is 0 exactly when a
child was spawned and exited with status 0.  A spawned child that exits with a
status `N ≠ 0` gives a non-zero status; a missing command, a log file that does
not open, a child that does not start, a child killed by a signal and a failed
wait all give a non-zero status. -/
theorem C1_exit_status (env : Env) (fl : Flags) :
    ((main env fl).status = 0 ↔
      ((configureAndRun env fl).events.any Event.isSpawn = true ∧
        env.outcome = ChildOutcome.exited 0 ∧
        (fl.logFilePath ≠ "" ∧ fl.alsoToStdOut = true → env.copyErr = none))) ∧
    ((main env fl).status = 0 ∨ (main env fl).status = 1) ∧
    ((main env fl).status = 0 ↔ (configureAndRun env fl).err = none) ∧
    (¬ (fl.logFilePath ≠ "" ∧ fl.alsoToStdOut = true) →
      ((main env fl).status = 0 ↔
        ((configureAndRun env fl).events.any Event.isSpawn = true ∧
          env.outcome = ChildOutcome.exited 0))) ∧
    (env.copyErr = none →
      ((main env fl).status = 0 ↔
        ((configureAndRun env fl).events.any Event.isSpawn = true ∧
          env.outcome = ChildOutcome.exited 0))) ∧
    (∀ N, (configureAndRun env fl).events.any Event.isSpawn = true →
      env.outcome = ChildOutcome.exited N → N ≠ 0 → (main env fl).status ≠ 0) ∧
    (∀ N, (configureAndRun env fl).events.any Event.isSpawn = true →
      env.outcome = ChildOutcome.exited N →
      (fl.logFilePath ≠ "" ∧ fl.alsoToStdOut = true → env.copyErr = none) →
      ((main env fl).status = 0 ↔ N = 0)) ∧
    (∀ e, fl.logFilePath ≠ "" → fl.alsoToStdOut = true → env.copyErr = some e →
      (main env fl).status = 1) ∧
    (fl.args = [] → (main env fl).status ≠ 0) ∧
    (logOpens env fl = false → (main env fl).status ≠ 0) ∧
    ((configureAndRun env fl).events.any Event.isSpawn = false → (main env fl).status ≠ 0) ∧
    (∀ s, env.outcome = ChildOutcome.signaled s → (main env fl).status ≠ 0) ∧
    (∀ e, env.outcome = ChildOutcome.waitFailed e → (main env fl).status ≠ 0) := by
  have hstat : (main env fl).status = 0 ↔ (configureAndRun env fl).err = none := by
    unfold main
    simp only
    cases (configureAndRun env fl).err <;> simp
  have h01 : (main env fl).status = 0 ∨ (main env fl).status = 1 := by
    unfold main
    simp only
    cases (configureAndRun env fl).err <;> simp
  have hiff : (configureAndRun env fl).err = none ↔
      ((configureAndRun env fl).events.any Event.isSpawn = true ∧
        env.outcome = ChildOutcome.exited 0 ∧
        (fl.logFilePath ≠ "" ∧ fl.alsoToStdOut = true → env.copyErr = none)) := by
    rcases configureAndRun_cases env fl with ⟨e, _, _, _, hr⟩ | ⟨_, _, hr⟩ |
        ⟨exe, exeArgs, e, _, _, _, hr⟩ | ⟨exe, exeArgs, _, _, _, hr⟩
    · rw [hr]; simp [Event.isSpawn]
    · rw [hr]; simp [openEvents_any_isSpawn, errors.Errorf]
    · rw [hr]; simp [List.any_append, openEvents_any_isSpawn, Event.isSpawn, runningEvent]
    · rw [hr]
      have hsp : (openEvents fl ++ [runningEvent env fl exe exeArgs,
          Event.cmdStart (cmdOf env fl exe exeArgs) true,
          Event.goSetupSigHandler env.pid, Event.cmdWait]).any Event.isSpawn = true := by
        simp [List.any_append, Event.isSpawn]
      simp only [hsp, true_and, Wrap_eq_none_iff]
      exact Wait_eq_none_iff env fl exe exeArgs
  have hargs : fl.args = [] → (configureAndRun env fl).err ≠ none := by
    intro ha
    rcases configureAndRun_cases env fl with ⟨e, _, _, _, hr⟩ | ⟨_, _, hr⟩ |
        ⟨exe, exeArgs, e, _, ha2, _, hr⟩ | ⟨exe, exeArgs, _, ha2, _, hr⟩
    · rw [hr]; simp
    · rw [hr]; simp [errors.Errorf]
    · rw [ha] at ha2; cases ha2
    · rw [ha] at ha2; cases ha2
  have hopen : logOpens env fl = false → (configureAndRun env fl).err ≠ none := by
    intro ho
    obtain ⟨hp, e, he⟩ := logOpens_false env fl ho
    rw [configureAndRun_openFail env fl e hp he]
    simp
  have hfull := hstat.trans hiff
  refine ⟨hfull, h01, hstat, ?_, ?_, ?_, ?_, ?_, ?_, ?_, ?_, ?_, ?_⟩
  · intro hn
    rw [hfull]
    exact ⟨fun h => ⟨h.1, h.2.1⟩, fun h => ⟨h.1, h.2, fun hc => absurd hc hn⟩⟩
  · intro hc
    rw [hfull]
    exact ⟨fun h => ⟨h.1, h.2.1⟩, fun h => ⟨h.1, h.2, fun _ => hc⟩⟩
  · intro N _ ho hN h0
    have h := (hfull.mp h0).2.1
    rw [ho] at h
    exact hN (ChildOutcome.exited.inj h)
  · intro N hsp ho hc
    rw [hfull]
    constructor
    · rintro ⟨_, h0, _⟩
      rw [ho] at h0
      exact ChildOutcome.exited.inj h0
    · intro hN
      exact ⟨hsp, by rw [ho, hN], hc⟩
  · intro e hp ha hc
    rcases h01 with h0 | h1
    · have h := (hfull.mp h0).2.2 ⟨hp, ha⟩
      rw [hc] at h
      cases h
    · exact h1
  · intro ha h0
    exact hargs ha (hstat.mp h0)
  · intro ho h0
    exact hopen ho (hstat.mp h0)
  · intro hsp h0
    have := (hfull.mp h0).1
    rw [hsp] at this
    cases this
  · intro s ho h0
    have := (hfull.mp h0).2.1
    rw [ho] at this
    cases this
  · intro e ho h0
    have := (hfull.mp h0).2.1
    rw [ho] at this
    cases this

/-- C1 amended, at concrete inputs: a child that exits with status 0 gives exit
status 0, a child that exits with status 3 does not, and neither does a child
that cannot be started. -/
theorem C1_exit_status_witness :
    (main (Env.ok 0) (Flags.default ["/bin/true"])).status = 0 ∧
    (main (Env.ok 3) (Flags.default ["/bin/false"])).status ≠ 0 ∧
    (main Env.noStart (Flags.default ["/bin/missing"])).status ≠ 0 :=
  ⟨(C1_exit_status (Env.ok 0) (Flags.default ["/bin/true"])).1.mpr
      ⟨by decide, rfl, fun _ => rfl⟩,
    (C1_exit_status (Env.ok 3) (Flags.default ["/bin/false"])).2.2.2.2.2.1 3 (by decide)
      rfl (by decide),
    (C1_exit_status Env.noStart (Flags.default ["/bin/missing"])).2.2.2.2.2.2.2.2.2.2.1
      (by decide)⟩

/-! ## Configuration errors -/

/-- C2 as stated fails: with a log file that does not open and no positional
arguments, the returned error is the log-file error, not the
"not enough arguments to run" error. -/
theorem C2_counterexample :
    flagsBadLogNoArgs.args = [] ∧
    (configureAndRun Env.noOpen flagsBadLogNoArgs).err ≠
      errors.Errorf "not enough arguments to run" ∧
    (configureAndRun Env.noOpen flagsBadLogNoArgs).err =
      some (GoError.withMessage
        (GoError.fundamental "open /nonexistent/run.log: no such file or directory")
        "failed to create log file /nonexistent/run.log") := by
  refine ⟨rfl, ?_, ?_⟩
  · decide
  · decide

/-- C2, amended: with an empty positional argument list `configureAndRun` fails,
`cmd.Start` is never called and no signal listener is started; the error is the
"not enough arguments to run" error when there is no log file to open or it
opens, and the log-file error when the log file does not open. -/
theorem C2_no_args (env : Env) (fl : Flags) (ha : fl.args = []) :
    (configureAndRun env fl).err ≠ none ∧
    (configureAndRun env fl).events.any Event.isStart = false ∧
    (configureAndRun env fl).events.any Event.isListener = false ∧
    (configureAndRun env fl).cmd = none ∧
    (logOpens env fl = true →
      (configureAndRun env fl).err = errors.Errorf "not enough arguments to run") ∧
    (logOpens env fl = false →
      ∃ e, env.openFile fl.logFilePath logFlag 0o644 = some e ∧
        (configureAndRun env fl).err =
          errors.Wrapf (some e) ("failed to create log file " ++ fl.logFilePath)) := by
  rcases configureAndRun_cases env fl with ⟨e, _, he, ho, hr⟩ | ⟨ho, _, hr⟩ |
      ⟨exe, exeArgs, e, _, ha2, _, hr⟩ | ⟨exe, exeArgs, _, ha2, _, hr⟩
  · rw [hr]
    refine ⟨by simp, by simp [Event.isStart], by simp [Event.isListener], by simp [Run.cmd],
      ?_, ?_⟩
    · intro h; rw [ho] at h; cases h
    · intro _; exact ⟨e, he, rfl⟩
  · rw [hr]
    refine ⟨by simp [errors.Errorf], openEvents_any_isStart fl, openEvents_any_isListener fl,
      ?_, ?_, ?_⟩
    · unfold Run.cmd openEvents
      split <;> simp
    · intro _; rfl
    · intro h; rw [ho] at h; cases h
  · rw [ha] at ha2; cases ha2
  · rw [ha] at ha2; cases ha2

/-- C2 amended, at concrete inputs: no log file and no arguments. -/
theorem C2_no_args_witness :
    (Flags.default []).args = [] ∧
    (configureAndRun (Env.ok 0) (Flags.default [])).events.any Event.isStart = false ∧
    (configureAndRun (Env.ok 0) (Flags.default [])).err =
      errors.Errorf "not enough arguments to run" :=
  ⟨rfl, (C2_no_args (Env.ok 0) (Flags.default []) rfl).2.1,
    (C2_no_args (Env.ok 0) (Flags.default []) rfl).2.2.2.2.1 (by decide)⟩

/-- C3: when the log file does not open, `configureAndRun` returns the open
failure wrapped in a message that names the path, after the one `os.OpenFile`
call and nothing else: `cmd.Start` is not called, no signal listener is started,
and the positional arguments make no difference. -/
theorem C3_log_open_failure (env : Env) (fl : Flags) (e : GoError)
    (hp : fl.logFilePath ≠ "") (ho : env.openFile fl.logFilePath logFlag 0o644 = some e) :
    (configureAndRun env fl).err =
      errors.Wrapf (some e) ("failed to create log file " ++ fl.logFilePath) ∧
    (∃ err, (configureAndRun env fl).err = some err ∧ err.Cause = e.Cause ∧
      err.Error = "failed to create log file " ++ fl.logFilePath ++ ": " ++ e.Error) ∧
    (configureAndRun env fl).events = [Event.openFile fl.logFilePath logFlag 0o644 false] ∧
    (configureAndRun env fl).events.any Event.isStart = false ∧
    (configureAndRun env fl).events.any Event.isSpawn = false ∧
    (configureAndRun env fl).events.any Event.isListener = false ∧
    (configureAndRun env fl).cmd = none ∧
    (∀ args, configureAndRun env { fl with args := args } = configureAndRun env fl) ∧
    (main env fl).status = 1 := by
  have hr := configureAndRun_openFail env fl e hp ho
  refine ⟨by rw [hr]; rfl,
    ⟨GoError.withMessage e ("failed to create log file " ++ fl.logFilePath), by rw [hr], rfl,
      rfl⟩,
    by rw [hr], by rw [hr]; rfl,
    by rw [hr]; rfl, by rw [hr]; rfl, by rw [hr]; rfl, ?_, ?_⟩
  · intro args
    rw [hr]
    exact configureAndRun_openFail env { fl with args := args } e hp ho
  · unfold main
    rw [hr]

/-- C3 at concrete inputs: a log file in a directory that does not exist. -/
theorem C3_log_open_failure_witness :
    flagsBadLog.logFilePath ≠ "" ∧
    (configureAndRun Env.noOpen flagsBadLog).events.any Event.isStart = false ∧
    (main Env.noOpen flagsBadLog).status = 1 :=
  ⟨by decide,
    (C3_log_open_failure Env.noOpen flagsBadLog
      (GoError.fundamental "open /nonexistent/run.log: no such file or directory")
      (by decide) rfl).2.2.2.1,
    (C3_log_open_failure Env.noOpen flagsBadLog
      (GoError.fundamental "open /nonexistent/run.log: no such file or directory")
      (by decide) rfl).2.2.2.2.2.2.2.2⟩

/-! ## Output routing -/

/-- C4: the destinations of the child's standard output depend on log-file and
also-stdout alone.  With no log file the stream is the inherited standard output
alone; with a log file and also-stdout false it is the log file alone, and a
write leaves the inherited standard output as it was; with a log file and
also-stdout true it is the inherited standard output and the log file, and a
write puts the same bytes at the end of both.  The inherited standard error is
never among the destinations. -/
theorem C4_output_destinations (env : Env) (fl : Flags) (exe : String)
    (exeArgs : List String) (ho : logOpens env fl = true) (ha : fl.args = exe :: exeArgs) :
    ∃ cmd out, (configureAndRun env fl).cmd = some cmd ∧ cmd.Stdout = some out ∧
      (fl.logFilePath = "" → out.dests = [File.Stdout]) ∧
      (fl.logFilePath ≠ "" → fl.alsoToStdOut = false →
        out.dests = [File.opened fl.logFilePath (O_APPEND ||| O_CREATE ||| O_WRONLY) 0o644]) ∧
      (fl.logFilePath ≠ "" → fl.alsoToStdOut = true →
        out.dests =
          [File.Stdout, File.opened fl.logFilePath (O_APPEND ||| O_CREATE ||| O_WRONLY) 0o644]) ∧
      (∀ (env2 : Env) (fl2 : Flags) (exe2 : String) (exeArgs2 : List String),
        logOpens env2 fl2 = true → fl2.args = exe2 :: exeArgs2 →
        fl2.logFilePath = fl.logFilePath → fl2.alsoToStdOut = fl.alsoToStdOut →
        ((configureAndRun env2 fl2).cmd.bind Cmd.Stdout) = some out) ∧
      (∀ (w : World) (b : Bytes),
        (w.write out b).stderr = w.stderr ∧
        (fl.logFilePath = "" →
          (w.write out b).stdout = w.stdout ++ b ∧ (w.write out b).files = w.files) ∧
        (fl.logFilePath ≠ "" → fl.alsoToStdOut = false →
          (w.write out b).stdout = w.stdout ∧
          (w.write out b).files fl.logFilePath =
            some ((w.files fl.logFilePath).getD [] ++ b)) ∧
        (fl.logFilePath ≠ "" → fl.alsoToStdOut = true →
          (w.write out b).stdout = w.stdout ++ b ∧
          (w.write out b).files fl.logFilePath =
            some ((w.files fl.logFilePath).getD [] ++ b))) := by
  refine ⟨cmdOf env fl exe exeArgs, outputStreamOf fl, cmd_of_args env fl exe exeArgs ho ha,
    rfl, ?_, ?_, ?_, ?_, ?_⟩
  · intro hp
    simp [outputStreamOf, hp, Writer.dests]
  · intro hp hs
    simp [outputStreamOf, hp, hs, Writer.dests, logFileOf, logFlag]
  · intro hp hs
    simp [outputStreamOf, hp, hs, Writer.dests, logFileOf, logFlag, io.MultiWriter]
  · intro env2 fl2 exe2 exeArgs2 ho2 ha2 hp hs
    rw [cmd_of_args env2 fl2 exe2 exeArgs2 ho2 ha2]
    simp [cmdOf, outputStreamOf, logFileOf, hp, hs]
  · intro w b
    by_cases hp : fl.logFilePath = ""
    · simp [outputStreamOf, hp, write_Stdout]
    · cases hs : fl.alsoToStdOut with
      | false =>
        have h := write_logFile w fl b
        have hout : outputStreamOf fl = Writer.file (logFileOf fl) := by
          simp [outputStreamOf, hp, hs]
        rw [hout]
        exact ⟨h.2.2.2, fun h0 => absurd h0 hp, fun _ _ => ⟨h.2.2.1, h.1⟩,
          fun _ h0 => Bool.noConfusion h0⟩
      | true =>
        have h := write_tee w fl b
        have hout : outputStreamOf fl = io.MultiWriter [File.Stdout, logFileOf fl] := by
          simp [outputStreamOf, hp, hs]
        rw [hout]
        exact ⟨h.2.2.2, fun h0 => absurd h0 hp, fun _ h0 => Bool.noConfusion h0,
          fun _ _ => ⟨h.2.2.1, h.1⟩⟩

/-- C4 at concrete inputs: with a log file and also-stdout, the destinations
are the inherited standard output and the log file. -/
theorem C4_output_destinations_witness :
    logOpens (Env.ok 0) flagsTee = true ∧ flagsTee.args = ["/bin/echo", "hi"] ∧
    ∃ cmd out, (configureAndRun (Env.ok 0) flagsTee).cmd = some cmd ∧ cmd.Stdout = some out ∧
      out.dests = [File.Stdout, File.opened "/tmp/run.log" 0x441 0o644] := by
  refine ⟨by decide, rfl, ?_⟩
  obtain ⟨cmd, out, h1, h2, _, _, h5, _⟩ :=
    C4_output_destinations (Env.ok 0) flagsTee "/bin/echo" ["hi"] (by decide) rfl
  exact ⟨cmd, out, h1, h2, h5 (by decide) rfl⟩

/-- C5: with redirect-stderr true, which is the default of the flag, the stream
wired to the child's standard error is the stream wired to its standard output:
a write to standard error has the effect of the same write to standard output,
the inherited standard error is not among the destinations, and nothing the
child writes changes it. -/
theorem C5_stderr_follows_stdout (env : Env) (fl : Flags) (exe : String)
    (exeArgs : List String) (ho : logOpens env fl = true) (ha : fl.args = exe :: exeArgs)
    (hr : fl.redirectStderr = true) :
    (Flags.default fl.args).redirectStderr = true ∧
    ∃ cmd out, (configureAndRun env fl).cmd = some cmd ∧
      cmd.Stdout = some out ∧ cmd.Stderr = some out ∧
      File.Stderr ∉ out.dests ∧
      (∀ (w : World) (b : Bytes), cmd.deliver w [(2, b)] = cmd.deliver w [(1, b)]) ∧
      (∀ (w : World) (writes : List ChildWrite), (cmd.deliver w writes).stderr = w.stderr) := by
  refine ⟨rfl, cmdOf env fl exe exeArgs, outputStreamOf fl,
    cmd_of_args env fl exe exeArgs ho ha, rfl, by simp [cmdOf, errStreamOf, hr],
    outputStreamOf_dests fl, ?_, ?_⟩
  · intro w b
    simp [Cmd.deliver, cmdOf, errStreamOf, hr]
  · intro w writes
    induction writes generalizing w with
    | nil => rfl
    | cons cw ws ih =>
      rw [deliver_cons, ih]
      simp only [cmdOf, errStreamOf, hr, if_true]
      split
      · rename_i out hout
        have : out = outputStreamOf fl := by
          split at hout
          · exact (Option.some.inj hout).symm
          · split at hout
            · exact (Option.some.inj hout).symm
            · cases hout
        rw [this]
        exact write_outputStreamOf_stderr w fl cw.2
      · rfl

/-- C5 at concrete inputs: the default flags. -/
theorem C5_stderr_follows_stdout_witness :
    logOpens (Env.ok 0) (Flags.default ["/bin/echo", "hi"]) = true ∧
    (Flags.default ["/bin/echo", "hi"]).redirectStderr = true ∧
    ∃ cmd out, (configureAndRun (Env.ok 0) (Flags.default ["/bin/echo", "hi"])).cmd = some cmd ∧
      cmd.Stdout = some out ∧ cmd.Stderr = some out := by
  refine ⟨by decide, rfl, ?_⟩
  obtain ⟨_, cmd, out, h1, h2, h3, _⟩ :=
    C5_stderr_follows_stdout (Env.ok 0) (Flags.default ["/bin/echo", "hi"]) "/bin/echo" ["hi"]
      (by decide) rfl rfl
  exact ⟨cmd, out, h1, h2, h3⟩

/-- C6: with redirect-stderr false the stream wired to the child's standard
error is the inherited standard error alone, the same for every configuration
with redirect-stderr false; a write to it lands on the inherited standard error
and leaves the inherited standard output and every file as they were. -/
theorem C6_stderr_inherited (env : Env) (fl : Flags) (exe : String)
    (exeArgs : List String) (ho : logOpens env fl = true) (ha : fl.args = exe :: exeArgs)
    (hr : fl.redirectStderr = false) :
    ∃ cmd, (configureAndRun env fl).cmd = some cmd ∧
      cmd.Stderr = some (Writer.file File.Stderr) ∧
      (∀ out, cmd.Stderr = some out →
        out.dests = [File.Stderr] ∧ File.Stdout ∉ out.dests ∧
        File.opened fl.logFilePath (O_APPEND ||| O_CREATE ||| O_WRONLY) 0o644 ∉ out.dests) ∧
      (∀ (env2 : Env) (fl2 : Flags) (exe2 : String) (exeArgs2 : List String),
        logOpens env2 fl2 = true → fl2.args = exe2 :: exeArgs2 →
        fl2.redirectStderr = false →
        (configureAndRun env2 fl2).cmd.bind Cmd.Stderr = cmd.Stderr) ∧
      (∀ (w : World) (b : Bytes),
        (cmd.deliver w [(2, b)]).stderr = w.stderr ++ b ∧
        (cmd.deliver w [(2, b)]).stdout = w.stdout ∧
        (cmd.deliver w [(2, b)]).files = w.files) := by
  have hc : (cmdOf env fl exe exeArgs).Stderr = some (Writer.file File.Stderr) := by
    simp [cmdOf, errStreamOf, hr]
  refine ⟨cmdOf env fl exe exeArgs, cmd_of_args env fl exe exeArgs ho ha, hc, ?_, ?_, ?_⟩
  · intro out hout
    rw [hc] at hout
    cases hout
    simp [Writer.dests]
  · intro env2 fl2 exe2 exeArgs2 ho2 ha2 hr2
    rw [cmd_of_args env2 fl2 exe2 exeArgs2 ho2 ha2, hc]
    simp [cmdOf, errStreamOf, hr2]
  · intro w b
    simp [Cmd.deliver, hc, write_Stderr]

/-- C6 at concrete inputs: a log file for standard output, standard error left
on the inherited stream. -/
theorem C6_stderr_inherited_witness :
    logOpens (Env.ok 0) flagsSplit = true ∧ flagsSplit.redirectStderr = false ∧
    ∃ cmd, (configureAndRun (Env.ok 0) flagsSplit).cmd = some cmd ∧
      cmd.Stderr = some (Writer.file File.Stderr) := by
  refine ⟨by decide, rfl, ?_⟩
  obtain ⟨cmd, h1, h2, _⟩ :=
    C6_stderr_inherited (Env.ok 0) flagsSplit "/bin/echo" ["hi"] (by decide) rfl rfl
  exact ⟨cmd, h1, h2⟩

/-! ## The child command -/

/-- C7: for a non-empty argument list the command handed to `cmd.Start` is
`exec.Command` of the first argument and the remaining ones with the two streams
set: its argument vector is the positional argument list itself, element for
element, and its path is what the first argument resolves to. -/
theorem C7_arguments_literal (env : Env) (fl : Flags) (ho : logOpens env fl = true)
    (hne : fl.args ≠ []) :
    ∃ cmd, (configureAndRun env fl).cmd = some cmd ∧
      cmd.Args = fl.args ∧
      (∀ i : Nat, cmd.Args[i]? = fl.args[i]?) ∧
      cmd.Args.length = fl.args.length ∧
      cmd.Path = env.lookPath (fl.args.head hne) ∧
      cmd.Args.tail = fl.args.tail ∧
      (∃ out err, cmd =
        { exec.Command env (fl.args.head hne) fl.args.tail with
          Stdout := some out, Stderr := some err }) ∧
      (∃ ok, Event.cmdStart cmd ok ∈ (configureAndRun env fl).events) := by
  obtain ⟨exe, exeArgs, ha⟩ : ∃ exe exeArgs, fl.args = exe :: exeArgs := by
    cases h : fl.args with
    | nil => exact absurd h hne
    | cons a l => exact ⟨a, l, rfl⟩
  have hargs : (cmdOf env fl exe exeArgs).Args = fl.args := by
    rw [ha]; rfl
  have hhead : fl.args.head hne = exe := by
    simp [ha]
  have htail : fl.args.tail = exeArgs := by
    simp [ha]
  refine ⟨cmdOf env fl exe exeArgs, cmd_of_args env fl exe exeArgs ho ha, hargs,
    fun i => by rw [hargs], by rw [hargs], by rw [hhead]; rfl, by rw [hargs],
    ⟨outputStreamOf fl, errStreamOf fl, by rw [hhead, htail]; rfl⟩, ?_⟩
  rw [configureAndRun_args env fl exe exeArgs ho ha]
  cases env.start (cmdOf env fl exe exeArgs) with
  | none => exact ⟨true, by simp⟩
  | some e => exact ⟨false, by simp⟩

/-- C7 at concrete inputs: an argument with a space, a dollar sign and a glob
character reaches the child as it is. -/
theorem C7_arguments_literal_witness :
    logOpens (Env.ok 0) (Flags.default ["/bin/echo", "$HOME *", "a b"]) = true ∧
    (Flags.default ["/bin/echo", "$HOME *", "a b"]).args ≠ [] ∧
    ∃ cmd, (configureAndRun (Env.ok 0) (Flags.default ["/bin/echo", "$HOME *", "a b"])).cmd
        = some cmd ∧
      cmd.Args = ["/bin/echo", "$HOME *", "a b"] := by
  refine ⟨by decide, by decide, ?_⟩
  obtain ⟨cmd, h1, h2, _⟩ :=
    C7_arguments_literal (Env.ok 0) (Flags.default ["/bin/echo", "$HOME *", "a b"])
      (by decide) (by decide)
  exact ⟨cmd, h1, h2⟩

/-! ## The log file -/

/-- C8: the log file is opened once, with `O_APPEND|O_CREATE|O_WRONLY` and no
`O_TRUNC`; opening it with that flag succeeds whether or not the file exists and
leaves what it held (nothing, for a file just created); and after the child's
writes the file holds its prior content followed by the bytes routed to it, in
write order: those of standard output, and those of standard error when it is
redirected. -/
theorem C8_log_file_appends (env : Env) (fl : Flags) (hp : fl.logFilePath ≠ "")
    (ho : logOpens env fl = true) :
    (configureAndRun env fl).events.head? =
      some (Event.openFile fl.logFilePath (O_APPEND ||| O_CREATE ||| O_WRONLY) 0o644 true) ∧
    (∀ name flag perm ok, Event.openFile name flag perm ok ∈ (configureAndRun env fl).events →
      name = fl.logFilePath ∧ hasFlag flag O_APPEND = true ∧ hasFlag flag O_CREATE = true ∧
      hasFlag flag O_WRONLY = true ∧ hasFlag flag O_TRUNC = false) ∧
    (∀ w : World, ∃ w1,
      w.openFile fl.logFilePath (O_APPEND ||| O_CREATE ||| O_WRONLY) = some w1 ∧
      w1.files fl.logFilePath = some ((w.files fl.logFilePath).getD []) ∧
      ∀ exe exeArgs, fl.args = exe :: exeArgs →
        ∃ cmd, (configureAndRun env fl).cmd = some cmd ∧
          ∀ writes : List ChildWrite,
            (cmd.deliver w1 writes).files fl.logFilePath =
              some ((w.files fl.logFilePath).getD [] ++
                bytesOf (if fl.redirectStderr then [1, 2] else [1]) writes) ∧
            ∃ after, (cmd.deliver w1 writes).files fl.logFilePath = some after ∧
              (w.files fl.logFilePath).getD [] <+: after) := by
  have hoe : openEvents fl = [Event.openFile fl.logFilePath logFlag 0o644 true] := by
    simp [openEvents, hp]
  refine ⟨?_, ?_, ?_⟩
  · rcases configureAndRun_cases env fl with ⟨e, _, _, ho2, _⟩ | ⟨_, _, hr⟩ |
        ⟨exe, exeArgs, e, _, _, _, hr⟩ | ⟨exe, exeArgs, _, _, _, hr⟩
    · rw [ho] at ho2; cases ho2
    · rw [hr, hoe]; rfl
    · rw [hr, hoe]; rfl
    · rw [hr, hoe]; rfl
  · intro name flag perm ok hmem
    have key : name = fl.logFilePath ∧ flag = logFlag := by
      rcases configureAndRun_cases env fl with ⟨e, _, _, ho2, _⟩ | ⟨_, _, hr⟩ |
          ⟨exe, exeArgs, e, _, _, _, hr⟩ | ⟨exe, exeArgs, _, _, _, hr⟩
      · rw [ho] at ho2; cases ho2
      · rw [hr, hoe] at hmem
        simp only [List.mem_singleton, Event.openFile.injEq] at hmem
        exact ⟨hmem.1, hmem.2.1⟩
      · rw [hr, hoe] at hmem
        simp only [runningEvent, List.singleton_append, List.mem_cons, Event.openFile.injEq,
          List.mem_singleton, reduceCtorEq, List.not_mem_nil, or_false] at hmem
        exact ⟨hmem.1, hmem.2.1⟩
      · rw [hr, hoe] at hmem
        simp only [runningEvent, List.singleton_append, List.mem_cons, Event.openFile.injEq,
          List.mem_singleton, reduceCtorEq, List.not_mem_nil, or_false] at hmem
        exact ⟨hmem.1, hmem.2.1⟩
    rw [key.2]
    exact ⟨key.1, hasFlag_logFlag.1, hasFlag_logFlag.2.1, hasFlag_logFlag.2.2.1,
      hasFlag_logFlag.2.2.2.1⟩
  · intro w
    refine ⟨_, openFile_logFlag w fl.logFilePath, by simp, ?_⟩
    intro exe exeArgs ha
    refine ⟨cmdOf env fl exe exeArgs, cmd_of_args env fl exe exeArgs ho ha, ?_⟩
    intro writes
    have h := deliver_logFile env fl exe exeArgs hp writes
      { w with
        files := Function.update w.files fl.logFilePath (some ((w.files fl.logFilePath).getD [])),
        offset := Function.update w.offset fl.logFilePath 0 }
      ((w.files fl.logFilePath).getD []) (by simp)
    exact ⟨h, _, h, List.prefix_append _ _⟩

/-- C8 at concrete inputs: the first call of a run with a log file. -/
theorem C8_log_file_appends_witness :
    flagsTee.logFilePath ≠ "" ∧ logOpens (Env.ok 0) flagsTee = true ∧
    (configureAndRun (Env.ok 0) flagsTee).events.head? =
      some (Event.openFile "/tmp/run.log" 0x441 0o644 true) ∧
    ∃ w1, worldWithLog.openFile "/tmp/run.log" 0x441 = some w1 ∧
      w1.files "/tmp/run.log" = some [104, 105, 10] :=
  ⟨by decide, by decide,
    (C8_log_file_appends (Env.ok 0) flagsTee (by decide) (by decide)).1,
    ((C8_log_file_appends (Env.ok 0) flagsTee (by decide) (by decide)).2.2 worldWithLog).imp
      (fun _ h => ⟨h.1, h.2.1⟩)⟩

/-! ## The signal listener -/

/-- The listener, case by case: nothing relayed, process not found, signal not
delivered, signal delivered. -/
theorem listener_core (env : Env) (pid : Nat) (incoming : List Nat) :
    ((setupSigHandler env pid incoming).events.filter Event.isSignal).length ≤ 1 ∧
    ((setupSigHandler env pid incoming).events.filter Event.isFind).length ≤ 1 ∧
    (setupSigHandler env pid incoming).events.count (Event.signalNotify [os.Interrupt]) = 1 ∧
    (∀ p s ok, Event.processSignal p s ok ∈ (setupSigHandler env pid incoming).events →
      p = pid ∧ (signal.Notify [os.Interrupt] incoming).head? = some s ∧
      ok = (env.signal pid s).isNone) ∧
    (signal.Notify [os.Interrupt] incoming = [] →
      (setupSigHandler env pid incoming).returned = false ∧
      (setupSigHandler env pid incoming).events.filter Event.isSignal = []) ∧
    (∀ s rest, signal.Notify [os.Interrupt] incoming = s :: rest →
      s = os.Interrupt ∧ s ∈ incoming ∧
      (setupSigHandler env pid incoming).returned = true ∧
      (env.findProcess pid = none →
        (setupSigHandler env pid incoming).events.filter Event.isSignal =
          [Event.processSignal pid s (env.signal pid s).isNone]) ∧
      (env.findProcess pid ≠ none →
        (setupSigHandler env pid incoming).events.filter Event.isSignal = [] ∧
        (setupSigHandler env pid incoming).events.getLast? =
          some (Event.logPrintf
            ("Could not find process " ++ toString pid ++ " to shut down.\n"))) ∧
      (∀ e, env.findProcess pid = none → env.signal pid s = some e →
        (setupSigHandler env pid incoming).events.getLast? =
          some (Event.logPrintf
            ("Failed to signal test process to terminate: " ++ e.Error ++ "\n")))) ∧
    (∀ fl, ((configureAndRun env fl).events.filter Event.isListener).length ≤ 1) ∧
    (∀ fl find sig,
      configureAndRun { env with findProcess := find, signal := sig } fl =
        configureAndRun env fl) := by
  have hshape : ∀ s rest, signal.Notify [os.Interrupt] incoming = s :: rest →
      s = os.Interrupt ∧ s ∈ incoming := by
    intro s rest h
    have hm : s ∈ signal.Notify [os.Interrupt] incoming := by rw [h]; simp
    have hm2 := notify_mem [os.Interrupt] incoming s hm
    exact ⟨(registered_interrupt s).mp hm2.1, hm2.2⟩
  cases hc : signal.Notify [os.Interrupt] incoming with
  | nil =>
    have hr : setupSigHandler env pid incoming =
        ⟨[Event.signalNotify [os.Interrupt], Event.logPrintln "Now listening for interrupts"],
          false⟩ := by
      simp [setupSigHandler, hc]
    rw [hr]
    refine ⟨by simp [Event.isSignal], by simp [Event.isFind], by simp [List.count_cons], ?_,
      ?_, ?_, ?_, ?_⟩
    · intro p s ok h; simp at h
    · intro _; exact ⟨rfl, by simp [Event.isSignal]⟩
    · intro s rest h; cases h
    · exact fun fl => listener_once env fl
    · exact fun fl find sig => result_independent env fl find sig
  | cons s rest =>
    cases hf : env.findProcess pid with
    | some e =>
      have hr : setupSigHandler env pid incoming =
          ⟨[Event.signalNotify [os.Interrupt], Event.logPrintln "Now listening for interrupts",
              Event.logPrintf ("Got signal: " ++ signalString s
                ++ ". Shutting down test process (PID: " ++ toString pid ++ ")\n"),
              Event.findProcess pid false,
              Event.logPrintf ("Could not find process " ++ toString pid ++ " to shut down.\n")],
            true⟩ := by
        simp [setupSigHandler, hc, hf]
      rw [hr]
      refine ⟨by simp [Event.isSignal], by simp [Event.isFind], by simp [List.count_cons], ?_,
        ?_, ?_, ?_, ?_⟩
      · intro p s2 ok h; simp at h
      · intro h; cases h
      · intro s2 rest2 h
        cases h
        refine ⟨(hshape s rest hc).1, (hshape s rest hc).2, rfl, ?_, ?_, ?_⟩
        · intro h; cases h
        · intro _; exact ⟨by simp [Event.isSignal], by simp⟩
        · intro e2 h; cases h
      · exact fun fl => listener_once env fl
      · exact fun fl find sig => result_independent env fl find sig
    | none =>
      cases hs : env.signal pid s with
      | some e =>
        have hr : setupSigHandler env pid incoming =
            ⟨[Event.signalNotify [os.Interrupt],
                Event.logPrintln "Now listening for interrupts",
                Event.logPrintf ("Got signal: " ++ signalString s
                  ++ ". Shutting down test process (PID: " ++ toString pid ++ ")\n"),
                Event.findProcess pid true, Event.processSignal pid s false,
                Event.logPrintf
                  ("Failed to signal test process to terminate: " ++ e.Error ++ "\n")],
              true⟩ := by
          simp [setupSigHandler, hc, hf, hs]
        rw [hr]
        refine ⟨by simp [Event.isSignal], by simp [Event.isFind], by simp [List.count_cons],
          ?_, ?_, ?_, ?_, ?_⟩
        · intro p s2 ok h
          simp at h
          obtain ⟨rfl, rfl, rfl⟩ := h
          simp [hs]
        · intro h; cases h
        · intro s2 rest2 h
          cases h
          refine ⟨(hshape s rest hc).1, (hshape s rest hc).2, rfl, ?_, ?_, ?_⟩
          · intro _; simp [Event.isSignal, hs]
          · intro h; exact absurd rfl h
          · intro e2 _ h2
            rw [hs] at h2
            cases h2
            simp
        · exact fun fl => listener_once env fl
        · exact fun fl find sig => result_independent env fl find sig
      | none =>
        have hr : setupSigHandler env pid incoming =
            ⟨[Event.signalNotify [os.Interrupt],
                Event.logPrintln "Now listening for interrupts",
                Event.logPrintf ("Got signal: " ++ signalString s
                  ++ ". Shutting down test process (PID: " ++ toString pid ++ ")\n"),
                Event.findProcess pid true, Event.processSignal pid s true,
                Event.logPrintf
                  ("Signalled process " ++ toString pid ++ " to terminate successfully.\n")],
              true⟩ := by
          simp [setupSigHandler, hc, hf, hs]
        rw [hr]
        refine ⟨by simp [Event.isSignal], by simp [Event.isFind], by simp [List.count_cons],
          ?_, ?_, ?_, ?_, ?_⟩
        · intro p s2 ok h
          simp at h
          obtain ⟨rfl, rfl, rfl⟩ := h
          simp [hs]
        · intro h; cases h
        · intro s2 rest2 h
          cases h
          refine ⟨(hshape s rest hc).1, (hshape s rest hc).2, rfl, ?_, ?_, ?_⟩
          · intro _; simp [Event.isSignal, hs]
          · intro h; exact absurd rfl h
          · intro e2 _ h2
            rw [hs] at h2
            cases h2
        · exact fun fl => listener_once env fl
        · exact fun fl find sig => result_independent env fl find sig

/-- C9: `setupSigHandler` registers once, for `os.Interrupt`, and receives once.
It returns exactly when an interrupt reaches the parent before any signal that
ends it; until then it has sent nothing, and when the parent is ended by another
signal first it never sends anything.  Once it has received the interrupt it
returns after at most one process lookup and at most one signal sent; a signal
it sends goes to `pid` and is the signal it received; when the process is found
that send is attempted exactly once, whether it succeeds or not; when the lookup
or the send fails the last thing it does is log.  `configureAndRun` starts the
listener exactly once, on the child it spawned, and only when it spawned one,
and what it returns does not depend on how the lookup and the send turn out. -/
theorem C9_forwards_one_signal (env : Env) (pid : Nat) (incoming : List Nat) :
    ((setupSigHandler env pid incoming).events.filter Event.isSignal).length ≤ 1 ∧
    ((setupSigHandler env pid incoming).events.filter Event.isFind).length ≤ 1 ∧
    (setupSigHandler env pid incoming).events.count (Event.signalNotify [os.Interrupt]) = 1 ∧
    (∀ p s ok, Event.processSignal p s ok ∈ (setupSigHandler env pid incoming).events →
      p = pid ∧ (signal.Notify [os.Interrupt] incoming).head? = some s ∧
      ok = (env.signal pid s).isNone) ∧
    (signal.Notify [os.Interrupt] incoming = [] →
      (setupSigHandler env pid incoming).returned = false ∧
      (setupSigHandler env pid incoming).events.filter Event.isSignal = []) ∧
    (∀ s rest, signal.Notify [os.Interrupt] incoming = s :: rest →
      s = os.Interrupt ∧ s ∈ incoming ∧
      (setupSigHandler env pid incoming).returned = true ∧
      (env.findProcess pid = none →
        (setupSigHandler env pid incoming).events.filter Event.isSignal =
          [Event.processSignal pid s (env.signal pid s).isNone]) ∧
      (env.findProcess pid ≠ none →
        (setupSigHandler env pid incoming).events.filter Event.isSignal = [] ∧
        (setupSigHandler env pid incoming).events.getLast? =
          some (Event.logPrintf
            ("Could not find process " ++ toString pid ++ " to shut down.\n"))) ∧
      (∀ e, env.findProcess pid = none → env.signal pid s = some e →
        (setupSigHandler env pid incoming).events.getLast? =
          some (Event.logPrintf
            ("Failed to signal test process to terminate: " ++ e.Error ++ "\n")))) ∧
    (∀ fl, ((configureAndRun env fl).events.filter Event.isListener).length ≤ 1) ∧
    (∀ fl find sig,
      configureAndRun { env with findProcess := find, signal := sig } fl =
        configureAndRun env fl) ∧
    ((setupSigHandler env pid incoming).returned = true ↔
      ∃ before after, incoming = before ++ os.Interrupt :: after ∧
        ∀ x ∈ before, x ≠ os.Interrupt ∧ runtimeKills x = false) ∧
    (∀ k, killedWaiting [os.Interrupt] incoming = some k →
      k ≠ os.Interrupt ∧ runtimeKills k = true ∧ k ∈ incoming ∧
      (setupSigHandler env pid incoming).returned = false ∧
      (setupSigHandler env pid incoming).events.filter Event.isSignal = [] ∧
      (setupSigHandler env pid incoming).events.filter Event.isFind = []) ∧
    (∀ fl, (configureAndRun env fl).events.filter Event.isListener =
      if (configureAndRun env fl).events.any Event.isSpawn then
        [Event.goSetupSigHandler env.pid]
      else []) := by
  obtain ⟨h1, h2, h3, h4, h5, h6, h7, h8⟩ := listener_core env pid incoming
  refine ⟨h1, h2, h3, h4, h5, h6, h7, h8, ?_, ?_, fun fl => listener_exact env fl⟩
  · constructor
    · intro hret
      cases hc : signal.Notify [os.Interrupt] incoming with
      | nil =>
        rw [(h5 hc).1] at hret
        cases hret
      | cons s rest =>
        obtain ⟨before, after, hsplit, hreg, hbefore⟩ :=
          notify_split [os.Interrupt] incoming s rest hc
        have hs : s = os.Interrupt := (registered_interrupt s).mp hreg
        subst hs
        refine ⟨before, after, hsplit, ?_⟩
        intro x hx
        refine ⟨?_, (hbefore x hx).2⟩
        intro hxi
        have := (registered_interrupt x).mpr hxi
        rw [(hbefore x hx).1] at this
        cases this
    · rintro ⟨before, after, hsplit, hbefore⟩
      have hn : signal.Notify [os.Interrupt] incoming =
          os.Interrupt :: signal.Notify [os.Interrupt] after := by
        rw [hsplit]
        refine notify_of_split [os.Interrupt] os.Interrupt after
          ((registered_interrupt _).mpr rfl) before ?_
        intro x hx
        refine ⟨?_, (hbefore x hx).2⟩
        cases hr : registered [os.Interrupt] x with
        | false => rfl
        | true => exact absurd ((registered_interrupt x).mp hr) (hbefore x hx).1
      exact (h6 _ _ hn).2.2.1
  · intro k hk
    obtain ⟨hn, hreg, hkill, hmem⟩ := killedWaiting_notify [os.Interrupt] incoming k hk
    have hne : k ≠ os.Interrupt := by
      intro hki
      have := (registered_interrupt k).mpr hki
      rw [hreg] at this
      cases this
    have hr : setupSigHandler env pid incoming =
        ⟨[Event.signalNotify [os.Interrupt], Event.logPrintln "Now listening for interrupts"],
          false⟩ := by
      simp [setupSigHandler, hn]
    refine ⟨hne, hkill, hmem, (h5 hn).1, (h5 hn).2, ?_⟩
    rw [hr]
    simp [Event.isFind]

/-- C9 at concrete inputs: a window change and two interrupts reach the parent,
the child has already gone, and the one send attempted is the interrupt, to the
child; when a TERM comes before the interrupts nothing is sent. -/
theorem C9_forwards_one_signal_witness :
    signal.Notify [os.Interrupt] [28, 2, 2] = [2, 2] ∧
    (setupSigHandler Env.noSignal 4242 [28, 2, 2]).returned = true ∧
    (setupSigHandler Env.noSignal 4242 [28, 2, 2]).events.filter Event.isSignal =
      [Event.processSignal 4242 2 false] ∧
    killedWaiting [os.Interrupt] [15, 2, 2] = some 15 ∧
    (setupSigHandler Env.noSignal 4242 [15, 2, 2]).returned = false ∧
    (setupSigHandler Env.noSignal 4242 [15, 2, 2]).events.filter Event.isSignal = [] :=
  ⟨by decide,
    ((C9_forwards_one_signal Env.noSignal 4242 [28, 2, 2]).2.2.2.2.2.1 2 [2]
      (by decide)).2.2.1,
    ((C9_forwards_one_signal Env.noSignal 4242 [28, 2, 2]).2.2.2.2.2.1 2 [2]
      (by decide)).2.2.2.1 rfl,
    by decide,
    ((C9_forwards_one_signal Env.noSignal 4242 [15, 2, 2]).2.2.2.2.2.2.2.2.2.1 15
      (by decide)).2.2.2.1,
    ((C9_forwards_one_signal Env.noSignal 4242 [15, 2, 2]).2.2.2.2.2.2.2.2.2.1 15
      (by decide)).2.2.2.2.1⟩

/-- C10: the listener registers for `os.Interrupt` only, and `SIGTERM` is not
`os.Interrupt`: when a TERM signal is all that reaches the parent, nothing is
relayed to the channel, `setupSigHandler` never gets past the receive, no
process is looked up and no signal is sent to the child; the TERM ends the
parent. -/
theorem C10_term_not_forwarded (env : Env) (pid : Nat) :
    SIGTERM ∉ [os.Interrupt] ∧
    signal.Notify [os.Interrupt] [SIGTERM] = [] ∧
    (setupSigHandler env pid [SIGTERM]).returned = false ∧
    (setupSigHandler env pid [SIGTERM]).events =
      [Event.signalNotify [os.Interrupt], Event.logPrintln "Now listening for interrupts"] ∧
    (setupSigHandler env pid [SIGTERM]).events.filter Event.isSignal = [] ∧
    (setupSigHandler env pid [SIGTERM]).events.filter Event.isFind = [] ∧
    (setupSigHandler env pid [os.Interrupt]).returned = true ∧
    killedWaiting [os.Interrupt] [SIGTERM] = some SIGTERM ∧
    runtimeKills SIGTERM = true := by
  refine ⟨by decide, by decide, rfl, rfl, rfl, rfl, ?_, by decide, by decide⟩
  have hc : signal.Notify [os.Interrupt] [os.Interrupt] = [os.Interrupt] := by decide
  unfold setupSigHandler
  simp only [hc]
  cases env.findProcess pid with
  | some e => rfl
  | none => cases env.signal pid os.Interrupt <;> rfl

end GoRunner
